import Mathlib

/-!
Verification of `packages/webapp/scripts/build.js`: the build-mode
orchestration script (production bundle vs development watch mode with a
one-shot dependency pre-bundle). The definitions below embed the script's
configuration values and its pure decision logic; the external bundler's
emission of output files from a configuration is modelled from the spec's
output-layout contract.
-/

/-- The package root: `path.resolve(__dirname, '..')` for a script in
`packages/webapp/scripts`. -/
def projectRoot : String := "packages/webapp"

/-- `root(...)`: a path resolved relative to the package root. -/
def root (p : String) : String := projectRoot ++ "/" ++ p

/-- Modelled from the spec: the project metadata's entry-point declaration
(the `main` field of `packages/webapp/package.json`, a file that is not under
`src/`); the spec's end-to-end example uses `src/main.ts`. -/
def packageMain : String := "src/main.ts"

/-- `sourceEntryPoint = root(main)`. -/
def sourceEntryPoint : String := root packageMain

/-- The rollup plugins the script instantiates, each with the configuration
the script passes it. -/
inductive Plugin where
  | clear (targets : List String)
  | commonJS
  | nodeResolve (extensions : Option (List String))
  | typescript (tsconfig : String)
  | sucrase (transforms : List String)
  | replace (values : List (String × String))
  | terser
  | serve (contentBase : String) (port : Nat) (historyApiFallback : String)
  | livereload (dir : String)
  deriving DecidableEq, Repr

/-- The extension list passed to `pluginNodeResolve` in the production and
watch pipelines. -/
def resolveExtensions : List String := [".mjs", ".js", ".json", ".node", ".ts", ".tsx"]

/-- The plugin list of `productionBuild`. -/
def productionPlugins : List Plugin :=
  [ Plugin.clear [root "public/build"],
    Plugin.commonJS,
    Plugin.nodeResolve (some resolveExtensions),
    Plugin.typescript (root "tsconfig.json"),
    Plugin.replace [("process.env.NODE_ENV", "\"production\"")],
    Plugin.terser ]

/-- The plugin list of `createDependenciesBundle` (the dependency
pre-bundle pass of a development build). -/
def createDependenciesBundlePlugins : List Plugin :=
  [ Plugin.clear [root "public/build"],
    Plugin.commonJS,
    Plugin.nodeResolve none,
    Plugin.replace [("process.env.NODE_ENV", "\"development\"")] ]

/-- The plugin list of `startWatchMode`: TypeScript when the `TS` flag is
set, else Sucrase; no `clear` and no `replace` plugin. -/
def startWatchModePlugins (TS : Bool) : List Plugin :=
  [ Plugin.commonJS,
    Plugin.nodeResolve (some resolveExtensions),
    (if TS then Plugin.typescript (root "tsconfig.json")
     else Plugin.sucrase ["typescript", "jsx"]),
    Plugin.serve (root "public") 5000 "/index.html",
    Plugin.livereload (root "public") ]

/-- Whether a plugin list contains the TypeScript (static type-checking)
plugin. -/
def usesTypeCheck (ps : List Plugin) : Bool :=
  ps.any fun p => match p with
    | Plugin.typescript _ => true
    | _ => false

/-- Whether a plugin list contains the output-clearing plugin. -/
def hasClear (ps : List Plugin) : Bool :=
  ps.any fun p => match p with
    | Plugin.clear _ => true
    | _ => false

/-- Whether a plugin list contains a `replace` (build-time substitution)
plugin. -/
def hasReplace (ps : List Plugin) : Bool :=
  ps.any fun p => match p with
    | Plugin.replace _ => true
    | _ => false

/-- Which pipeline an invocation runs, and hence whether the TypeScript
plugin is applied: production uses `productionPlugins`; development watch
mode uses `startWatchModePlugins TS`. -/
def staticTypeCheckApplied (DEV TS : Bool) : Bool :=
  usesTypeCheck (if DEV then startWatchModePlugins TS else productionPlugins)

/-- The `Typescript Mode` value the script prints in verbose mode:
`TS || !DEV`. -/
def typescriptModeLog (DEV TS : Bool) : Bool := TS || !DEV

/-- A dependency's package metadata, as read by `getEntryPointPath` from the
dependency's own `package.json`: the `main`, `module` and `type` fields,
each possibly absent. -/
structure PackageMetadata where
  main : Option String
  module : Option String
  type : Option String
  deriving DecidableEq, Repr

/-- JavaScript `a || b` over string-valued fields: an absent field
(`undefined`) and the empty string are falsy. -/
def jsOr (a b : Option String) : Option String :=
  match a with
  | none => b
  | some s => if s = "" then b else some s

/-- The `ManualMap` object in `getEntryPointPath` is empty: no dependency
has a manually mapped path. -/
def ManualMap (_name : String) : Option String := none

/-- The metadata field `getEntryPointPath` selects:
`type === 'module' ? main : module || ManualMap[name] || main`. -/
def entryChoice (name : String) (m : PackageMetadata) : Option String :=
  if m.type = some "module" then m.main
  else jsOr m.module (jsOr (ManualMap name) m.main)

/-- `getEntryPointPath`: the selected field is resolved as a specifier
inside the dependency's package (`require.resolve(join(name, chosen))`;
filesystem resolution itself is external and kept symbolic). `none` models
the throw when the selected field is absent. -/
def getEntryPointPath (name : String) (m : PackageMetadata) : Option String :=
  (entryChoice name m).map fun p => name ++ "/" ++ p

/-- JavaScript truthiness of a string-valued field. -/
def truthy : Option String → Bool
  | none => false
  | some s => !(s == "")

/-- The resolution rule in the spec's own words, amended to the code's
order: the `main` field when the package's `type` is `"module"`; otherwise
the first truthy of the `module` field, the manually curated override and
the `main` field. -/
def specEntryRule (name : String) (m : PackageMetadata) : Option String :=
  if m.type = some "module" then m.main
  else if truthy m.module then m.module
  else if truthy (ManualMap name) then ManualMap name
  else m.main

/-- Replace every occurrence of the literal placeholder `[name]` in a
file-name template with the entry's name (rollup's `entryFileNames`
substitution), character by character. -/
def substNameChars (name : List Char) : List Char → List Char
  | '[' :: 'n' :: 'a' :: 'm' :: 'e' :: ']' :: rest => name ++ substNameChars name rest
  | c :: rest => c :: substNameChars name rest
  | [] => []

/-- `substName template name`: `template` with `[name]` replaced by
`name`. -/
def substName (template name : String) : String :=
  ⟨substNameChars name.data template.data⟩

/-- The base name of a path: everything after the last `/`. -/
def baseName (p : String) : String :=
  ⟨p.data.foldl (fun acc c => if c = '/' then [] else acc ++ [c]) []⟩

/-- Characters of a file name up to its first `.`. -/
def stemChars : List Char → List Char
  | [] => []
  | '.' :: _ => []
  | c :: rest => c :: stemChars rest

/-- Modelled from the spec's collaborator contract: the bundler names a
single string entry after the entry file's stem. The two single-entry
configurations below use a fixed `entryFileNames` with no placeholder, so
this name never reaches an output file name. -/
def singleEntryName (p : String) : String := ⟨stemChars (baseName p).data⟩

/-- A rollup `input`: either a single entry path or a map from entry names
to entry paths. -/
inductive InputSpec where
  | single (path : String)
  | entries (map : List (String × String))

/-- The entry names of an input: the map's keys, or the stem of a single
entry path. -/
def entryNames : InputSpec → List String
  | InputSpec.single p => [singleEntryName p]
  | InputSpec.entries m => m.map Prod.fst

/-- The `inputOptions` object the script passes to rollup. A missing
`external` field defaults to no externalized module. -/
structure InputOptions where
  input : InputSpec
  context : String
  plugins : List Plugin
  external : List String := []

/-- The `outputOptions` object the script passes to `bundle.write`. A
missing `paths` field defaults to no import rewriting. -/
structure OutputOptions where
  dir : String
  format : String
  entryFileNames : String
  sourcemap : Bool
  exports : Option String := none
  paths : List (String × String) := []

/-- Modelled from the spec (output-directory layout and bundle-artifact
lifecycle): writing a bundle emits, for each entry of the input, one file
under `dir` named by `entryFileNames` with `[name]` replaced by the entry's
name, followed by its `.map` source map when `sourcemap` is set. -/
def emittedFiles (inp : InputSpec) (out : OutputOptions) : List String :=
  (entryNames inp).flatMap fun n =>
    let f := out.dir ++ "/" ++ substName out.entryFileNames n
    if out.sourcemap then [f, f ++ ".map"] else [f]

/-- `productionBuild`'s `inputOptions`. -/
def productionInputOptions : InputOptions :=
  { input := InputSpec.single sourceEntryPoint,
    context := "window",
    plugins := productionPlugins }

/-- `productionBuild`'s `outputOptions`. -/
def productionOutputOptions : OutputOptions :=
  { dir := root "public/build",
    format := "es",
    entryFileNames := "bundle.js",
    sourcemap := true }

/-- `createDependenciesBundle`'s `inputOptions`: one named entry per
declared dependency, its path resolved by `getEntryPointPath` (`entryOf`
stands for the resolved paths). -/
def createDependenciesBundleInputOptions
    (deps : List String) (entryOf : String → String) : InputOptions :=
  { input := InputSpec.entries (deps.map fun n => (n, entryOf n)),
    context := "window",
    plugins := createDependenciesBundlePlugins }

/-- `createDependenciesBundle`'s `outputOptions`. -/
def createDependenciesBundleOutputOptions : OutputOptions :=
  { dir := root "public/build/dependencies",
    format := "es",
    entryFileNames := "[name].js",
    sourcemap := true,
    exports := some "named" }

/-- The served path a dependency's import is rewritten to:
`./dependencies/<name>.js`. -/
def servedPath (k : String) : String := "./dependencies/" ++ k ++ ".js"

/-- The `paths` table of `startWatchMode`'s `outputOptions`:
`Object.fromEntries(dependenciesArr.map(k => [k, './dependencies/' + k + '.js']))`. -/
def pathTable (deps : List String) : List (String × String) :=
  deps.map fun k => (k, servedPath k)

/-- `startWatchMode`'s `inputOptions`: the application entry point, with
every declared dependency marked external. -/
def startWatchModeInputOptions (TS : Bool) (deps : List String) : InputOptions :=
  { input := InputSpec.single sourceEntryPoint,
    context := "window",
    plugins := startWatchModePlugins TS,
    external := deps }

/-- `startWatchMode`'s `outputOptions`. -/
def startWatchModeOutputOptions (deps : List String) : OutputOptions :=
  { dir := root "public/build",
    format := "es",
    entryFileNames := "bundle.js",
    sourcemap := true,
    paths := pathTable deps }

/-- The event codes a rollup watcher delivers to its `event` listener. -/
inductive WatchEventCode where
  | START
  | BUNDLE_START
  | BUNDLE_END
  | END
  | ERROR
  deriving DecidableEq, Repr

/-- A watcher event: its code and (for `BUNDLE_END`) the build duration. -/
structure WatchEvent where
  code : WatchEventCode
  duration : Nat
  deriving DecidableEq, Repr

/-- An observable console effect of the script. -/
inductive ConsoleAction where
  | log (msg : String)
  | error (msg : String)
  | exitProcess (code : Nat)
  deriving DecidableEq, Repr

/-- The watcher's `event` listener in `startWatchMode`: it logs on
`BUNDLE_START` and `BUNDLE_END` and does nothing for any other code. -/
def watcherOnEvent (ev : WatchEvent) : List ConsoleAction :=
  (if ev.code = WatchEventCode.BUNDLE_START then
    [ConsoleAction.log "\nFound Changes"] else []) ++
  (if ev.code = WatchEventCode.BUNDLE_END then
    [ConsoleAction.log ("Completed build: " ++ toString ev.duration ++ "ms")] else [])

/-- Whether a build stage succeeds or rejects. -/
inductive StageOutcome where
  | success
  | failure
  deriving DecidableEq, Repr

/-- Where a successful invocation ends up: a finished production build, or
a live watch loop. -/
inductive ProcessPhase where
  | completed
  | watching
  deriving DecidableEq, Repr

/-- The process-level outcome of an invocation. -/
inductive ProcessResult where
  | exitedWithError (code : Nat) (message : String)
  | running (phase : ProcessPhase)
  deriving DecidableEq, Repr

/-- `errorHandler`: `console.error(err); process.exit(1)`. -/
def errorHandler (err : String) : ProcessResult :=
  ProcessResult.exitedWithError 1 err

/-- `createDependenciesBundle` as a fallible stage: its rejection carries a
pre-bundle error. -/
def createDependenciesBundleRun (pre : StageOutcome) : Except String Unit :=
  match pre with
  | StageOutcome.success => Except.ok ()
  | StageOutcome.failure => Except.error "PrebundleError"

/-- `developmentBuild`: awaits the dependency pre-bundle, then starts watch
mode; a pre-bundle rejection propagates before the watch loop starts. -/
def developmentBuild (pre : StageOutcome) : Except String ProcessPhase := do
  createDependenciesBundleRun pre
  pure ProcessPhase.watching

/-- `productionBuild` as a fallible stage: a compile error rejects. -/
def productionBuild (compile : StageOutcome) : Except String ProcessPhase :=
  match compile with
  | StageOutcome.success => Except.ok ProcessPhase.completed
  | StageOutcome.failure => Except.error "CompileError"

/-- The top-level dispatch:
`if (DEV) developmentBuild().catch(errorHandler) else productionBuild().catch(errorHandler)`. -/
def dispatch (DEV : Bool) (outcome : StageOutcome) : ProcessResult :=
  match (if DEV then developmentBuild outcome else productionBuild outcome) with
  | Except.error e => errorHandler e
  | Except.ok ph => ProcessResult.running ph

/-- The `[name].js` file-name template instantiated at an entry name. -/
theorem substName_entry (n : String) : substName "[name].js" n = n ++ ".js" := by
  cases n with
  | mk d => rfl

/-- `entryChoice` agrees with the amended resolution rule stated in the
spec's style. -/
theorem entryRule_eq (name : String) (m : PackageMetadata) :
    entryChoice name m = specEntryRule name m := by
  by_cases ht : m.type = some "module"
  · simp [entryChoice, specEntryRule, ht]
  · cases hmod : m.module with
    | none => simp [entryChoice, specEntryRule, ht, hmod, jsOr, truthy, ManualMap]
    | some s =>
      by_cases hs : s = ""
      · simp [entryChoice, specEntryRule, ht, hmod, hs, jsOr, truthy, ManualMap]
      · simp [entryChoice, specEntryRule, ht, hmod, hs, jsOr, truthy, ManualMap]

/-- C1 counterexample: for metadata `{main: "a.js", module: "b.js",
type: "module"}` the resolution function picks the `main` field `"a.js"`,
not `"b.js"` as the claim states. -/
theorem entryChoice_module_counterexample :
    entryChoice "dep"
      { main := some "a.js", module := some "b.js", type := some "module" }
      = some "a.js"
    ∧ ¬ (entryChoice "dep"
      { main := some "a.js", module := some "b.js", type := some "module" }
      = some "b.js") := by decide

/-- C1 (amended): the entry-point resolution is a deterministic function of
the metadata that picks, in order of first match, the `main` field when the
package's `type` is `"module"`, else the `module` field, else a manually
curated override, else the `main` field; in particular for
`{main: "a.js", module: "b.js", type: "module"}` it picks `"a.js"`, and for
`{main: "a.js", type: "commonjs"}` it picks `"a.js"`. -/
theorem getEntryPointPath_spec (name : String) (m : PackageMetadata) :
    entryChoice name m = specEntryRule name m
    ∧ entryChoice name
        { main := some "a.js", module := some "b.js", type := some "module" }
        = some "a.js"
    ∧ entryChoice name
        { main := some "a.js", module := none, type := some "commonjs" }
        = some "a.js"
    ∧ getEntryPointPath name m
        = (specEntryRule name m).map (fun p => name ++ "/" ++ p) := by
  refine ⟨entryRule_eq name m, rfl, rfl, ?_⟩
  unfold getEntryPointPath
  rw [entryRule_eq name m]

/-- C2 counterexample: a development invocation without the explicit
type-check flag does not apply static type checking (the Sucrase path runs,
not the TypeScript plugin). -/
theorem staticTypeCheckDefault_counterexample :
    ¬ (staticTypeCheckApplied true false = true) := by decide

/-- C2 (amended): the resolved static-type-check setting is true
unconditionally in production mode; in development mode it is true only when
the explicit type-check flag is set (the default is the faster untyped
path), matching the logged formula `TS || !DEV`. -/
theorem staticTypeCheckApplied_policy (DEV TS : Bool) :
    staticTypeCheckApplied DEV TS = (TS || !DEV)
    ∧ staticTypeCheckApplied false TS = true
    ∧ staticTypeCheckApplied true TS = TS
    ∧ staticTypeCheckApplied DEV TS = typescriptModeLog DEV TS := by
  cases DEV <;> cases TS <;> decide

/-- C3: for a development invocation, the dependency pre-bundle emits, per
declared dependency, exactly the file `dependencies/<name>.js` plus its
source map under the output directory, and the watch-phase application
bundle marks every declared dependency external and rewrites its import
target to `./dependencies/<name>.js`. -/
theorem dependenciesBundle_layout (TS : Bool) (deps : List String)
    (entryOf : String → String) :
    emittedFiles (createDependenciesBundleInputOptions deps entryOf).input
        createDependenciesBundleOutputOptions
      = deps.flatMap (fun n =>
          [root "public/build/dependencies" ++ "/" ++ (n ++ ".js"),
           root "public/build/dependencies" ++ "/" ++ (n ++ ".js") ++ ".map"])
    ∧ (startWatchModeInputOptions TS deps).external = deps
    ∧ (startWatchModeOutputOptions deps).paths
      = deps.map (fun n => (n, "./dependencies/" ++ n ++ ".js")) := by
  refine ⟨?_, rfl, rfl⟩
  induction deps with
  | nil => rfl
  | cons d rest ih =>
    simpa [createDependenciesBundleInputOptions, emittedFiles, entryNames,
      createDependenciesBundleOutputOptions, substName_entry] using ih

/-- C5: the dependency-name-to-served-path mapping is injective (a bijection
onto its image), and an empty manifest yields an empty table. -/
theorem pathTable_injective (k₁ k₂ : String) (h : servedPath k₁ = servedPath k₂) :
    k₁ = k₂ ∧ pathTable [] = [] := by
  refine ⟨?_, rfl⟩
  have hd := congrArg String.data h
  simp only [servedPath, String.data_append] at hd
  have h1 := List.append_cancel_left (List.append_cancel_right hd)
  cases k₁ with
  | mk d₁ =>
    cases k₂ with
    | mk d₂ => exact congrArg String.mk h1

/-- C5 witness: the injectivity hypothesis discharged at the concrete
dependency name `lib-a`. -/
theorem pathTable_injective_witness :
    "lib-a" = "lib-a" ∧ pathTable [] = [] :=
  pathTable_injective "lib-a" "lib-a" rfl

/-- C6: a production invocation emits exactly `bundle.js` and
`bundle.js.map` directly under the output root, and externalizes no
dependency. -/
theorem productionBuild_artifacts :
    emittedFiles productionInputOptions.input productionOutputOptions
      = [root "public/build" ++ "/" ++ "bundle.js",
         root "public/build" ++ "/" ++ "bundle.js" ++ ".map"]
    ∧ productionInputOptions.external = []
    ∧ productionOutputOptions.dir = root "public/build" := by decide

/-- C7 counterexample: the watch-phase plugin list contains no
output-clearing plugin, so an incremental watch rebuild does not clear the
output directory before it begins. -/
theorem watchRebuild_noClear_counterexample :
    hasClear (startWatchModePlugins false) = false
    ∧ hasClear (startWatchModePlugins true) = false := by decide

/-- C7 (amended): the production pass and the one-shot dependency pre-bundle
clear the output directory (`public/build`) immediately before they begin;
incremental watch rebuilds perform no clearing, leaving the pre-bundled
dependencies directory and the previous artifact in place. -/
theorem clearBeforePass (TS : Bool) :
    Plugin.clear [root "public/build"] ∈ productionPlugins
    ∧ Plugin.clear [root "public/build"] ∈ createDependenciesBundlePlugins
    ∧ hasClear (startWatchModePlugins TS) = false := by
  cases TS <;> decide

/-- C8 counterexample: the watcher's event listener produces no console
action at all for an `ERROR` event — in particular the compile error is not
logged by the orchestrator. -/
theorem watcherError_notLogged_counterexample :
    watcherOnEvent { code := WatchEventCode.ERROR, duration := 0 } = []
    ∧ (∀ msg, ConsoleAction.log msg
        ∉ watcherOnEvent { code := WatchEventCode.ERROR, duration := 0 }) := by
  refine ⟨rfl, ?_⟩
  intro msg hmem
  simp [watcherOnEvent] at hmem

/-- C8 (amended): in watch mode a compile error is non-fatal: the watcher's
event listener never terminates the process (it produces no exit action for
any event) and the watch pipeline performs no clearing, so the previous
successful artifact is left in place; however, the listener does not log the
error — it reports only `BUNDLE_START` and `BUNDLE_END` events — and
re-triggering a build on the next source change is performed by the external
watcher. -/
theorem watchError_nonfatal (ev : WatchEvent) :
    (∀ n, ConsoleAction.exitProcess n ∉ watcherOnEvent ev)
    ∧ (ev.code = WatchEventCode.ERROR → watcherOnEvent ev = [])
    ∧ hasClear (startWatchModePlugins false) = false
    ∧ hasClear (startWatchModePlugins true) = false := by
  obtain ⟨code, d⟩ := ev
  refine ⟨?_, ?_, by decide, by decide⟩
  · intro n hmem
    cases code <;> simp [watcherOnEvent] at hmem
  · intro h
    have hc : code = WatchEventCode.ERROR := h
    subst hc
    rfl

/-- C9: any unrecovered error in the production build or in the one-shot
dependency pre-bundle terminates the process with exit status 1 after
printing the error, and a pre-bundle failure prevents the watch loop from
ever starting. -/
theorem fatalError_exits (DEV : Bool) (outcome : StageOutcome) :
    dispatch DEV StageOutcome.failure
      = ProcessResult.exitedWithError 1
          (if DEV then "PrebundleError" else "CompileError")
    ∧ dispatch DEV StageOutcome.failure
      ≠ ProcessResult.running ProcessPhase.watching
    ∧ (dispatch true outcome = ProcessResult.running ProcessPhase.watching
        → outcome = StageOutcome.success) := by
  cases DEV <;> cases outcome <;> decide

/-- C10: in development mode only the dependency pre-bundle carries the
build-time environment substitution (`process.env.NODE_ENV` becomes the
literal `"development"`); the watch-phase pipeline contains no substitution
plugin at all. -/
theorem replaceOnlyInPrebundle (TS : Bool) :
    Plugin.replace [("process.env.NODE_ENV", "\"development\"")]
      ∈ createDependenciesBundlePlugins
    ∧ hasReplace (startWatchModePlugins TS) = false := by
  cases TS <;> decide
